import Mathlib

/-!
Shallow embedding of the go-tmx layer decoder / GID resolver (src/tmx/tmx.go)
and of the tmx2console export pipeline (src/unnamed/part_003, part_004,
src/tmx/example/tmx2console/gba.go).

Machine integers (uint32, uint16, uint8) are modelled as Nat with explicit
masks / `% 2^w` where the Go code can overflow.  Go pointers to tilesets
(`*tmx.Tileset`, always `&m.Tilesets[i]`) are modelled as the index `i` into
the tileset list of the map, so Go pointer equality becomes equality of indices;
a nil pointer is `none`.  Fallible Go functions returning `(T, error)` are
modelled with `Except Err T` (or `T × Option Err` when the Go code keeps
both values, as `GetProperty` does).
-/

/-- The error values declared across tmx.go and the tmx2console sources. -/
inductive Err where
  | UnknownEncoding
  | UnknownCompression
  | InvalidDecodedDataLen
  | InvalidGID
  | InvalidPointsField
  | Base64CorruptInput
  | InvalidCompressionMethod
  | TooManyTiles
  | MultipleTilesets
  | EmptyLayer
  | PropertyNotUnique
  | PropertyUnavailable
  | WriteError
deriving DecidableEq, Repr

deriving instance DecidableEq for Except

/-- tmx.go: `GIDHorizontalFlip = 0x80000000`. -/
def GIDHorizontalFlip : Nat := 0x80000000

/-- tmx.go: `GIDVerticalFlip = 0x40000000`. -/
def GIDVerticalFlip : Nat := 0x40000000

/-- tmx.go: `GIDDiagonalFlip = 0x20000000`. -/
def GIDDiagonalFlip : Nat := 0x20000000

/-- tmx.go: `GIDFlip = GIDHorizontalFlip | GIDVerticalFlip | GIDDiagonalFlip`. -/
def GIDFlip : Nat := GIDHorizontalFlip ||| GIDVerticalFlip ||| GIDDiagonalFlip

/-- tmx.go: `GIDMask = 0x0fffffff` (declared; unused by DecodeGID). -/
def GIDMask : Nat := 0x0fffffff

/-- tmx.go `Tile`: only the fields the verified code reads (the Image field is
XML-only data never consulted by the decoder or exporter). -/
structure Tile where
  ID : Nat
deriving DecidableEq, Repr

/-- tmx.go `Tileset`: the fields consulted by DecodeGID and the exporter
(FirstGID, Tiles); Name kept for identity.  XML-only fields omitted. -/
structure Tileset where
  FirstGID : Nat
  Name : String
  Tiles : List Tile
deriving DecidableEq, Repr

def defaultTileset : Tileset := { FirstGID := 0, Name := "", Tiles := [] }

/-- tmx.go `Property`. -/
structure Property where
  Name : String
  Value : String
deriving DecidableEq, Repr

/-- tmx.go `Properties`.  The Go field is also named `Properties`; Lean cannot
shadow the type name with its own field, so the field is `PropertiesList`. -/
structure Properties where
  PropertiesList : List Property
deriving DecidableEq, Repr

/-- tmx.go `(p *Properties) Get(name)`: collects, in order, the values of all
properties whose Name matches. -/
def Properties.Get (p : Properties) (name : String) : List String :=
  (p.PropertiesList.filter (fun pr => pr.Name == name)).map (fun pr => pr.Value)

/-- tmx.go `DecodedTile`.  `Tileset` is `*tmx.Tileset` in Go, always either nil
or `&m.Tilesets[i]`; modelled as the index `i`.  Note the Go struct has no
DiagonalFlip field. -/
structure DecodedTile where
  ID : Nat
  Tileset : Option Nat
  HorizontalFlip : Bool
  VerticalFlip : Bool
  Nil : Bool
deriving DecidableEq, Repr

/-- tmx.go: `NilTile = &DecodedTile{Nil: false}` — every other field is its Go
zero value, and the Nil flag is literally `false` in the source. -/
def NilTile : DecodedTile :=
  { ID := 0, Tileset := none, HorizontalFlip := false, VerticalFlip := false, Nil := false }

/-- tmx.go `(t *DecodedTile) IsNil()`. -/
def DecodedTile.IsNil (t : DecodedTile) : Bool := t.Nil

/-- tmx.go `Layer`: the derived fields plus the property list; the Go zero
values of `Tileset`/`Empty` (nil/false) are what `Read` starts from. -/
structure Layer where
  Name : String
  Properties : Properties
  GIDs : List Nat
  DecodedTiles : List DecodedTile
  Tileset : Option Nat
  Empty : Bool
deriving DecidableEq, Repr

/-- tmx.go `Data` (layer payload): encoding/compression names and the raw
inner-XML bytes. -/
structure Data where
  Encoding : String
  Compression : String
  RawData : List Nat
deriving DecidableEq, Repr

/-- tmx.go `Map`: dimensions and the ordered tileset list (plus layers). -/
structure Map where
  Width : Nat
  Height : Nat
  Tilesets : List Tileset
  Layers : List Layer
deriving DecidableEq, Repr

/-- The descending scan of `Map.DecodeGID` (tmx.go lines 400–410):
`for i := len(m.Tilesets) - 1; i >= 0; i--`.  Fuel `n+1` examines index `n`;
the source computes `gidBare` once before the loop, so it is a parameter. -/
def decodeGIDFrom (tilesets : List Tileset) (gid gidBare : Nat) : Nat → Except Err DecodedTile
  | 0 => .error Err.InvalidGID
  | n + 1 =>
    match tilesets.get? n with
    | none => decodeGIDFrom tilesets gid gidBare n
    | some ts =>
      if ts.FirstGID ≤ gidBare then
        .ok { ID := gidBare - ts.FirstGID
              Tileset := some n
              HorizontalFlip := (gid &&& GIDHorizontalFlip) != 0
              VerticalFlip := (gid &&& GIDVerticalFlip) != 0
              Nil := false }
      else decodeGIDFrom tilesets gid gidBare n

/-- tmx.go `Map.DecodeGID`.  The source tests `gid == 0` (the raw 32-bit value,
flip bits included) before masking: `gidBare := gid &^ GIDFlip` keeps the low
29 bits, i.e. `gid &&& 0x1FFFFFFF` on a uint32. -/
def Map.DecodeGID (m : Map) (gid : Nat) : Except Err DecodedTile :=
  if gid = 0 then .ok NilTile
  else decodeGIDFrom m.Tilesets gid (gid &&& 0x1FFFFFFF) m.Tilesets.length

/-- The scan of tmx.go `getTileset` (lines 338–347), with the accumulator
`tileset *Tileset` threaded explicitly.  Note the Go code can assign a nil
`tile.Tileset` into the accumulator when `tile.Nil` is false but the tile is
the NilTile sentinel. -/
def getTilesetLoop : Option Nat → List DecodedTile → Option Nat × Bool × Bool
  | acc, [] =>
    match acc with
    | none => (none, true, false)
    | some t => (some t, false, false)
  | acc, tile :: rest =>
    if !tile.Nil then
      match acc with
      | none => getTilesetLoop tile.Tileset rest
      | some t =>
        if tile.Tileset ≠ some t then (some t, false, true)
        else getTilesetLoop (some t) rest
    else getTilesetLoop acc rest

/-- tmx.go `getTileset(m, l)`: returns (tileset, isEmpty, usesMultipleTilesets). -/
def getTileset (_m : Map) (l : Layer) : Option Nat × Bool × Bool :=
  getTilesetLoop none l.DecodedTiles

/-- The per-layer post-pass of `Read` (tmx.go lines 380–388): when the layer
uses multiple tilesets the loop `continue`s, leaving `Empty`/`Tileset` at
their Go zero values (false / nil); otherwise both fields are assigned. -/
def readLayerFields (m : Map) (l : Layer) : Layer :=
  let (tileset, isEmpty, usesMultipleTilesets) := getTileset m l
  if usesMultipleTilesets then l
  else { l with Empty := isEmpty, Tileset := tileset }

/-- The DecodeGID pass of `Read` (tmx.go lines 369–378): resolve every GID of
a layer in order, aborting on the first error. -/
def decodeTiles (m : Map) : List Nat → Except Err (List DecodedTile)
  | [] => .ok []
  | gid :: rest => do
    let t ← m.DecodeGID gid
    let ts ← decodeTiles m rest
    .ok (t :: ts)

/-- ASCII whitespace as recognised by the Go function `bytes.TrimSpace` (the model limits
itself to the ASCII range; the payloads at issue are base64 text). -/
def isSpaceByte (b : Nat) : Bool :=
  b == 32 || b == 9 || b == 10 || b == 13 || b == 11 || b == 12

/-- Model of `bytes.TrimSpace`: drop leading and trailing whitespace bytes. -/
def trimSpace (bs : List Nat) : List Nat :=
  ((bs.dropWhile isSpaceByte).reverse.dropWhile isSpaceByte).reverse

/-- Value of one standard-alphabet base64 character (A–Z a–z 0–9 + /). -/
def b64Val (c : Nat) : Option Nat :=
  if 65 ≤ c ∧ c ≤ 90 then some (c - 65)
  else if 97 ≤ c ∧ c ≤ 122 then some (c - 97 + 26)
  else if 48 ≤ c ∧ c ≤ 57 then some (c - 48 + 52)
  else if c = 43 then some 62
  else if c = 47 then some 63
  else none

/-- Decode whole base64 quanta (4 characters to 3 bytes, `=` padding allowed
only at the end), as the Go decoder `base64.NewDecoder(base64.StdEncoding, r)` does
when the stream is read to the end. -/
def decodeQuanta : List Nat → Except Err (List Nat)
  | [] => .ok []
  | c1 :: c2 :: c3 :: c4 :: rest =>
    match b64Val c1, b64Val c2 with
    | some v1, some v2 =>
      if c3 = 61 then
        if c4 = 61 ∧ rest = [] then .ok [v1 * 4 + v2 / 16]
        else .error Err.Base64CorruptInput
      else
        match b64Val c3 with
        | some v3 =>
          if c4 = 61 then
            if rest = [] then .ok [v1 * 4 + v2 / 16, v2 % 16 * 16 + v3 / 4]
            else .error Err.Base64CorruptInput
          else
            match b64Val c4 with
            | some v4 =>
              match decodeQuanta rest with
              | .ok tl =>
                .ok ((v1 * 4 + v2 / 16) :: (v2 % 16 * 16 + v3 / 4) :: (v3 % 4 * 64 + v4) :: tl)
              | .error e => .error e
            | none => .error Err.Base64CorruptInput
        | none => .error Err.Base64CorruptInput
    | _, _ => .error Err.Base64CorruptInput
  | _ => .error Err.Base64CorruptInput

/-- The Go standard base64 stream decoder skips newline bytes before grouping
into quanta. -/
def base64DecodeStd (input : List Nat) : Except Err (List Nat) :=
  decodeQuanta (input.filter (fun c => c != 13 && c != 10))

/-- tmx.go `(d *Data) decodeBase64`: trim surrounding whitespace, base64-decode,
then route the byte stream through the declared decompression.  The gzip and
zlib algorithms are external collaborators (package compress), so they are
parameters of the model; `""` is a pass-through; any other name is
UnknownCompression (checked before any decoding output is consumed). -/
def Data.decodeBase64 (gz zl : List Nat → Except Err (List Nat)) (d : Data) :
    Except Err (List Nat) :=
  let rawData := trimSpace d.RawData
  if d.Compression = "gzip" then (base64DecodeStd rawData).bind gz
  else if d.Compression = "zlib" then (base64DecodeStd rawData).bind zl
  else if d.Compression = "" then base64DecodeStd rawData
  else .error Err.UnknownCompression

/-- The byte-to-GID conversion of tmx.go `decodeLayerBase64` (lines 261–272):
the nested y/x loop advances `j` by 4 per cell and stores into index
`y*Width+x`, in the same order, i.e. consecutive 4-byte groups become
little-endian uint32 values (`GID(b0) + GID(b1)<<8 + GID(b2)<<16 +
GID(b3)<<24`, uint32 arithmetic). -/
def gidsOfBytes : List Nat → List Nat
  | b0 :: b1 :: b2 :: b3 :: rest =>
    (b0 + b1 <<< 8 + b2 <<< 16 + b3 <<< 24) % 2 ^ 32 :: gidsOfBytes rest
  | _ => []

/-- tmx.go `Map.decodeLayerBase64`: decode the payload, reject any byte count
other than `Width*Height*4` with InvalidDecodedDataLen, otherwise reinterpret
as little-endian uint32 GIDs. -/
def Map.decodeLayerBase64 (gz zl : List Nat → Except Err (List Nat)) (m : Map)
    (d : Data) : Except Err (List Nat) :=
  match Data.decodeBase64 gz zl d with
  | .error e => .error e
  | .ok dataBytes =>
    if dataBytes.length ≠ m.Width * m.Height * 4 then .error Err.InvalidDecodedDataLen
    else .ok (gidsOfBytes dataBytes)

/-- part_003 `GetProperty(properties []tmx.Property, name)`: the lookup in the
same snapshot as `Do`/`saveLayer`.  Returns the Go pair (value, err); on an
error path the named return `value` keeps its zero value "". -/
def GetProperty (properties : List Property) (name : String) : String × Option Err :=
  let values := (properties.filter (fun p => p.Name == name)).map (fun p => p.Value)
  if values.length > 1 then ("", some Err.PropertyNotUnique)
  else if values.length = 0 then ("", some Err.PropertyUnavailable)
  else (values.getD 0 "", none)

/-- part_004 `GetProperty(p *tmx.Properties, name)`: the pointer-signature
revision used by gba.go.  After the duplicate check the source tests
`len(value) == 0` — `value` is the named return, still the empty string at
that point — instead of `len(values)`. -/
def GetPropertyPtr (p : Properties) (name : String) : String × Option Err :=
  let values := p.Get name
  if values.length > 1 then ("", some Err.PropertyNotUnique)
  else
    let value : String := ""
    if value.length = 0 then ("", some Err.PropertyUnavailable)
    else (values.getD 0 "", none)

/-- The `encoding/binary` byte orders. -/
inductive Endian where
  | little
  | big
deriving DecidableEq, Repr

/-- The dynamically typed value the ScreenblockEntry of a console produces
(an `interface` value in Go): a Go uint8
or uint16 (the payloads are kept below the width by construction with `%`). -/
inductive BinValue where
  | u8 (v : Nat)
  | u16 (v : Nat)
deriving DecidableEq, Repr

/-- Model of `binary.Write(w, order, v)`: the bytes the value serialises to. -/
def putBytes : Endian → BinValue → List Nat
  | _, .u8 v => [v % 256]
  | .little, .u16 v => [v % 256, v / 256 % 256]
  | .big, .u16 v => [v / 256 % 256, v % 256]

/-- part_003 `Console` interface: per-target capability record.  The GBA
implementation is stateful (caches); the pipeline theorems quantify over an
arbitrary pure console, the GBA functions are modelled separately with their
state threaded explicitly. -/
structure Console where
  MaxTiles : Map → Layer → Nat
  ScreenblockEntry : Map → Layer → DecodedTile → Except Err BinValue
  ByteOrder : Endian

/-- part_003: the keys of the `CompressionMethods` registry (the gbacomp
method values are external). -/
def CompressionMethods : List String := ["LZ77", "RLE", "Huffman4", "Huffman8"]

/-- Model of `l.Tileset.Tiles`: Go dereferences the tileset pointer of the
layer (a nil pointer would crash at runtime); the model resolves the index
in the tileset list of the map. -/
def layerTilesetTiles (m : Map) (l : Layer) : List Tile :=
  match l.Tileset with
  | some k => (m.Tilesets.getD k defaultTileset).Tiles
  | none => []

/-- One call to the underlying writer: the `failAt`-th write call reports an
I/O error and stores nothing; any other call appends its bytes.  State is
(number of write calls made, bytes successfully written). -/
def sinkWrite (failAt : Option Nat) (cnt : Nat) (out : List Nat) (bytes : List Nat) :
    Nat × List Nat × Option Err :=
  if failAt = some cnt then (cnt + 1, out, some Err.WriteError)
  else (cnt + 1, out ++ bytes, none)

/-- The y/x serialisation loop of part_003 `saveLayer` (lines 104–116): per
cell, `ScreenblockEntry` errors abort, but the `err` assigned from
`binary.Write` is never checked before the next iteration or the final
`return nil`, so a write failure is dropped on the floor. -/
def saveLayerLoop (c : Console) (m : Map) (l : Layer) (failAt : Option Nat) :
    Nat → Nat → Nat → List Nat → Except Err Unit × List Nat
  | 0, _, _, out => (.ok (), out)
  | n + 1, i, cnt, out =>
    match c.ScreenblockEntry m l (l.DecodedTiles.getD i NilTile) with
    | .error e => (.error e, out)
    | .ok v =>
      match sinkWrite failAt cnt out (putBytes c.ByteOrder v) with
      | (cnt', out', _discardedWriteErr) => saveLayerLoop c m l failAt n (i + 1) cnt' out'

/-- part_003 `saveLayer` (lines 78–118): precondition checks, compression
registry lookup, then the serialisation loop.  The gbacomp compressor is an
external byte-stream filter; a recognised method wraps the sink, modelled as
a transparent pass-through.  Result: (return value, bytes written). -/
def saveLayer (c : Console) (m : Map) (l : Layer) (failAt : Option Nat) :
    Except Err Unit × List Nat :=
  if l.Tileset = none then
    if l.Empty then (.error Err.EmptyLayer, [])
    else (.error Err.MultipleTilesets, [])
  else if (layerTilesetTiles m l).length > c.MaxTiles m l then
    (.error Err.TooManyTiles, [])
  else
    let compression := (GetProperty l.Properties.PropertiesList "Compression").1
    if compression ≠ "" ∧ ¬ CompressionMethods.contains compression then
      (.error Err.InvalidCompressionMethod, [])
    else
      saveLayerLoop c m l failAt (m.Height * m.Width) 0 0 []

/-- The y/x loop of part_003 `saveLayerBitmap` (lines 123–140), verbatim: `i`
serves as cell index, shift amount and 8-counter at once; it is reset to 0
after each emitted byte, and the accumulator `d` (uint8) is never cleared.
Fuel counts the remaining `Height*Width` iterations. -/
def saveLayerBitmapLoop (tiles : List DecodedTile) : Nat → Nat → Nat → List Nat
  | 0, _, _ => []
  | n + 1, i, d =>
    let d' := if (tiles.getD i NilTile).Nil = false then d ||| (1 <<< i) else d
    let i' := i + 1
    if i' &&& 7 = 0 then d' :: saveLayerBitmapLoop tiles n 0 d'
    else saveLayerBitmapLoop tiles n i' d'

/-- part_003 `saveLayerBitmap` (lines 120–142): the bytes written for a layer
exported in bitmap mode (no precondition of any kind is checked here). -/
def saveLayerBitmap (m : Map) (l : Layer) : List Nat :=
  saveLayerBitmapLoop l.DecodedTiles (m.Height * m.Width) 0 0

/-- The per-layer dispatch of part_003 `Do` (lines 147–164): the `Bitmap`
property selects `saveLayerBitmap` (whose pure sink cannot fail), anything
else goes to `saveLayer`. -/
def exportLayer (c : Console) (m : Map) (l : Layer) (failAt : Option Nat) :
    Except Err Unit × List Nat :=
  let bitmap := (GetProperty l.Properties.PropertiesList "Bitmap").1
  if bitmap == "true" then (.ok (), saveLayerBitmap m l)
  else saveLayer c m l failAt

/-- gba.go: `GBAHFlip = 1 << 10`. -/
def GBAHFlip : Nat := 1 <<< 10

/-- gba.go: `GBAVFlip = 1 << 11`. -/
def GBAVFlip : Nat := 1 <<< 11

/-- gba.go `GBA`: the two identity-keyed caches; a `*tmx.Layer` map key is
modelled as a Nat identity, a nil (uninitialised) Go map as `none`. -/
structure GBA where
  isAffineCache : Option (List (Nat × Bool))
  nilTileCache : Option (List (Nat × Nat))
deriving DecidableEq, Repr

/-- A fresh `new(GBA)`: both cache maps are nil. -/
def GBA.init : GBA := { isAffineCache := none, nilTileCache := none }

/-- Model of `strconv.ParseUint(s, 10, bitSize)` as used by gba.go: decimal digits
only, result must fit in `bitSize` bits, reported through Option. -/
def parseUint (s : String) (bitSize : Nat) : Option Nat :=
  match s.toNat? with
  | some v => if v < 2 ^ bitSize then some v else none
  | none => none

/-- gba.go `(g *GBA) isAffine(l)`: look up the cache (initialising a nil map),
otherwise read the `Affine` property through the part_004 GetProperty and
cache the answer.  `lid` is the pointer identity of the layer. -/
def GBA.isAffine (g : GBA) (l : Layer) (lid : Nat) : Bool × GBA :=
  let cache := g.isAffineCache.getD []
  match cache.lookup lid with
  | some affine => (affine, { g with isAffineCache := some cache })
  | none =>
    let affineString := (GetPropertyPtr l.Properties "Affine").1
    let affine := affineString == "true"
    (affine, { g with isAffineCache := some ((lid, affine) :: cache) })

/-- gba.go `(g *GBA) MaxTiles(m, l)`. -/
def GBA.MaxTiles (g : GBA) (l : Layer) (lid : Nat) : Nat × GBA :=
  let (affine, g1) := GBA.isAffine g l lid
  (if affine then 255 else 511, g1)

/-- gba.go `(g *GBA) nilTile(m, l)` (lines 64–84), modelled statement by
statement.  `nilTile, ok := g.nilTileCache[l]` leaves the OUTER `nilTile` at
the zero value 0 on a cache miss; inside `if !ok` the source declares a NEW
`nilTile :=` (shadowing), computes the default `uint16(len(l.Tileset.Tiles))`
or the `NilTile` property override, and stores it in the cache — but the
value returned below the `if` is the outer variable. -/
def GBA.nilTile (g : GBA) (m : Map) (l : Layer) (lid : Nat) : BinValue × GBA :=
  let cache := g.nilTileCache.getD []
  let nilTileOuter := (cache.lookup lid).getD 0
  let hit := (cache.lookup lid).isSome
  let g1 :=
    if hit then { g with nilTileCache := some cache }
    else
      let nilTileInner := (layerTilesetTiles m l).length % 65536
      let nilTileString := (GetPropertyPtr l.Properties "NilTile").1
      let nilTileInner :=
        match parseUint nilTileString 16 with
        | some v => v
        | none => nilTileInner
      { g with nilTileCache := some ((lid, nilTileInner) :: cache) }
  let (affine, g2) := GBA.isAffine g1 l lid
  if affine then (.u8 (nilTileOuter % 256), g2) else (.u16 nilTileOuter, g2)

/-- gba.go `(g *GBA) ScreenblockEntry(m, l, tile)` (lines 86–113): nil tiles
take the `g.nilTile` sentinel path; otherwise the tile index, with the GBA
H/V flip bits in 16-bit mode (diagonal flip has no encoding and is dropped). -/
def GBA.ScreenblockEntry (g : GBA) (m : Map) (l : Layer) (lid : Nat)
    (tile : DecodedTile) : Except Err BinValue × GBA :=
  let (affine, g1) := GBA.isAffine g l lid
  let rval : Nat → BinValue := fun v => if affine then .u8 (v % 256) else .u16 (v % 65536)
  if tile.IsNil then
    let (v, g2) := GBA.nilTile g1 m l lid
    (.ok v, g2)
  else
    let tid := tile.ID % 65536
    if affine then (.ok (rval tid), g1)
    else
      let tid := if tile.HorizontalFlip then tid ||| GBAHFlip else tid
      let tid := if tile.VerticalFlip then tid ||| GBAVFlip else tid
      (.ok (rval tid), g1)

/-! Concrete fixtures used by witnesses and counterexamples. -/

/-- One tileset, first gid 1, one tile. -/
def tilesetA : Tileset := { FirstGID := 1, Name := "a", Tiles := [{ ID := 0 }] }

/-- 2×1 map over `tilesetA`. -/
def mapA : Map := { Width := 2, Height := 1, Tilesets := [tilesetA], Layers := [] }

/-- 2×2 map over `tilesetA`. -/
def map2x2 : Map := { Width := 2, Height := 2, Tilesets := [tilesetA], Layers := [] }

/-- The tile `mapA.DecodeGID 1` resolves to. -/
def tileA0 : DecodedTile :=
  { ID := 0, Tileset := some 0, HorizontalFlip := false, VerticalFlip := false, Nil := false }

/-- A freshly parsed layer (derived fields at their zero values) whose cells
decoded to one real tile then one nil cell. -/
def layerA10 : Layer :=
  { Name := "L", Properties := { PropertiesList := [] }, GIDs := [1, 0],
    DecodedTiles := [tileA0, NilTile], Tileset := none, Empty := false }

/-- 2×2 bitmap-mode layer whose four cells are all non-nil. -/
def layerBitmap2x2 : Layer :=
  { Name := "B", Properties := { PropertiesList := [{ Name := "Bitmap", Value := "true" }] },
    GIDs := [1, 1, 1, 1], DecodedTiles := [tileA0, tileA0, tileA0, tileA0],
    Tileset := some 0, Empty := false }

/-- 2×2 bitmap-mode layer with every cell nil and no tileset (an empty layer). -/
def layerEmptyBitmap : Layer :=
  { Name := "E", Properties := { PropertiesList := [{ Name := "Bitmap", Value := "true" }] },
    GIDs := [0, 0, 0, 0], DecodedTiles := [NilTile, NilTile, NilTile, NilTile],
    Tileset := none, Empty := true }

/-- Indexed-mode layer with no tileset, empty. -/
def layerNoTilesetEmpty : Layer :=
  { Name := "N", Properties := { PropertiesList := [] }, GIDs := [0, 0, 0, 0],
    DecodedTiles := [NilTile, NilTile, NilTile, NilTile], Tileset := none, Empty := true }

/-- Indexed-mode layer with no tileset, not empty (mixed tilesets). -/
def layerNoTilesetMixed : Layer :=
  { Name := "M", Properties := { PropertiesList := [] }, GIDs := [1, 1, 1, 1],
    DecodedTiles := [tileA0, tileA0, tileA0, tileA0], Tileset := none, Empty := false }

/-- Indexed-mode layer over `tilesetA`, four non-nil cells. -/
def layerFour : Layer :=
  { Name := "F", Properties := { PropertiesList := [] }, GIDs := [1, 1, 1, 1],
    DecodedTiles := [tileA0, tileA0, tileA0, tileA0], Tileset := some 0, Empty := false }

/-- A pure console: generous ceiling, constant 16-bit entry, little-endian. -/
def consolePure : Console :=
  { MaxTiles := fun _ _ => 1000, ScreenblockEntry := fun _ _ _ => .ok (.u16 0),
    ByteOrder := .little }

/-- A console whose tile ceiling is 0 (forces TooManyTiles). -/
def consoleZeroMax : Console :=
  { MaxTiles := fun _ _ => 0, ScreenblockEntry := fun _ _ _ => .ok (.u16 0),
    ByteOrder := .little }

/-- 1×1 map whose tileset declares 16 tiles (the Scenario D fixture). -/
def mapGBA : Map :=
  { Width := 1, Height := 1,
    Tilesets := [{ FirstGID := 1, Name := "g", Tiles := List.replicate 16 { ID := 0 } }],
    Layers := [] }

/-- Layer with the single property `Affine = "true"` and no `NilTile` property. -/
def layerAffine : Layer :=
  { Name := "A", Properties := { PropertiesList := [{ Name := "Affine", Value := "true" }] },
    GIDs := [0], DecodedTiles := [NilTile], Tileset := some 0, Empty := false }

/-- The property list with exactly one entry for the key `Affine`. -/
def propsAffine : Properties :=
  { PropertiesList := [{ Name := "Affine", Value := "true" }] }

/-- Two sorted, non-overlapping tilesets: ranges [1,3) and [3,5). -/
def tilesetB0 : Tileset := { FirstGID := 1, Name := "b0", Tiles := [{ ID := 0 }, { ID := 1 }] }

def tilesetB1 : Tileset := { FirstGID := 3, Name := "b1", Tiles := [{ ID := 0 }, { ID := 1 }] }

def mapB : Map := { Width := 1, Height := 1, Tilesets := [tilesetB0, tilesetB1], Layers := [] }

/-! Helper lemmas about the GID resolver. -/

/-- Masking as the source does with `gid &^ GIDFlip` on a uint32, i.e. `gid &&& 0x1FFFFFFF`, is reduction
modulo `2^29`. -/
lemma and_mask29 (gid : Nat) : gid &&& 0x1FFFFFFF = gid % 0x20000000 := by
  have h := Nat.and_pow_two_sub_one_eq_mod gid 29
  norm_num at h
  exact h

/-- Two numbers with the same quotient by `2^i` mask identically against the
single bit `2^i`. -/
lemma and_flag_eq (i n1 n2 : Nat) (h : n1 / 2 ^ i = n2 / 2 ^ i) :
    n1 &&& 2 ^ i = n2 &&& 2 ^ i := by
  rw [Nat.and_two_pow, Nat.and_two_pow, Nat.testBit_to_div_mod, Nat.testBit_to_div_mod, h]

/-- When the bare id is below the FirstGID of every tileset, the descending scan of
DecodeGID falls through and reports InvalidGID. -/
lemma decodeGIDFrom_all_gt (ts : List Tileset) (gid bare : Nat)
    (h : ∀ t ∈ ts, bare < t.FirstGID) :
    ∀ n, decodeGIDFrom ts gid bare n = .error Err.InvalidGID := by
  intro n
  induction n with
  | zero => rfl
  | succ n ih =>
    unfold decodeGIDFrom
    cases hg : ts.get? n with
    | none => exact ih
    | some t =>
      have ht : t ∈ ts := List.get?_mem hg
      dsimp only
      rw [if_neg (Nat.not_le.mpr (h t ht))]
      exact ih

/-- The scan result depends on the raw gid only through its two flag bits. -/
lemma decodeGIDFrom_congr (ts : List Tileset) (g1 g2 bare : Nat)
    (hH : g1 &&& GIDHorizontalFlip = g2 &&& GIDHorizontalFlip)
    (hV : g1 &&& GIDVerticalFlip = g2 &&& GIDVerticalFlip) :
    ∀ n, decodeGIDFrom ts g1 bare n = decodeGIDFrom ts g2 bare n := by
  intro n
  induction n with
  | zero => rfl
  | succ n ih =>
    unfold decodeGIDFrom
    cases hg : ts.get? n with
    | none => exact ih
    | some t =>
      dsimp only
      by_cases hle : t.FirstGID ≤ bare
      · rw [if_pos hle, if_pos hle, hH, hV]
      · rw [if_neg hle, if_neg hle]
        exact ih

/-- When index `k` holds the owning tileset and every tileset after it starts
above the bare id, the descending scan stops exactly at `k`. -/
lemma decodeGIDFrom_hit (ts : List Tileset) (gid bare k : Nat) (tk : Tileset)
    (hget : ts.get? k = some tk) (hle : tk.FirstGID ≤ bare)
    (habove : ∀ j t, k < j → ts.get? j = some t → bare < t.FirstGID) :
    ∀ n, k < n → n ≤ ts.length →
      decodeGIDFrom ts gid bare n =
        .ok { ID := bare - tk.FirstGID, Tileset := some k,
              HorizontalFlip := (gid &&& GIDHorizontalFlip) != 0,
              VerticalFlip := (gid &&& GIDVerticalFlip) != 0,
              Nil := false } := by
  intro n
  induction n with
  | zero => intro hk; omega
  | succ n ih =>
    intro hkn hnlen
    unfold decodeGIDFrom
    by_cases hnk : n = k
    · subst hnk
      rw [hget]
      dsimp only
      rw [if_pos hle]
    · have hkn' : k < n := by omega
      cases hg : ts.get? n with
      | none =>
        have : ts.length ≤ n := List.get?_eq_none.mp hg
        omega
      | some t =>
        dsimp only
        rw [if_neg (Nat.not_le.mpr (habove n t hkn' hg))]
        exact ih hkn' (by omega)

/-- Under the sorted/non-overlapping hypothesis, FirstGID is monotone in the
tileset index. -/
lemma firstGID_mono (ts : List Tileset)
    (hs : ∀ j, j < ts.length - 1 →
      (ts.getD j defaultTileset).FirstGID + (ts.getD j defaultTileset).Tiles.length ≤
        (ts.getD (j + 1) defaultTileset).FirstGID) :
    ∀ d i, i + d < ts.length →
      (ts.getD i defaultTileset).FirstGID ≤ (ts.getD (i + d) defaultTileset).FirstGID := by
  intro d
  induction d with
  | zero => intro i _; exact Nat.le_refl _
  | succ d ih =>
    intro i h
    have h1 : i + d < ts.length := by omega
    have step := hs (i + d) (by omega)
    have base := ih i h1
    have : i + (d + 1) = (i + d) + 1 := rfl
    rw [this]
    omega

/-- Dropping one 4-byte group shifts `getD` indices by 4. -/
lemma getD_cons4 (b0 b1 b2 b3 : Nat) (x : List Nat) (n : Nat) :
    (b0 :: b1 :: b2 :: b3 :: x).getD (n + 4) 0 = x.getD n 0 := by
  have h4 : n + 4 = n + 3 + 1 := by omega
  have h3 : n + 3 = n + 2 + 1 := by omega
  have h2 : n + 2 = n + 1 + 1 := by omega
  rw [h4, List.getD_cons_succ, h3, List.getD_cons_succ, h2, List.getD_cons_succ,
      List.getD_cons_succ]

/-- The function `gidsOfBytes` produces one GID per whole 4-byte group. -/
theorem gidsOfBytes_length : ∀ (B : List Nat), (gidsOfBytes B).length = B.length / 4
  | b0 :: b1 :: b2 :: b3 :: rest => by
    have ih := gidsOfBytes_length rest
    simp only [gidsOfBytes, List.length_cons, ih]
    omega
  | [] => by simp [gidsOfBytes]
  | [_] => by simp [gidsOfBytes]
  | [_, _] => by simp [gidsOfBytes]
  | [_, _, _] => by simp [gidsOfBytes]

/-- The `k`-th GID is the little-endian uint32 read at byte offset `4*k`. -/
theorem gidsOfBytes_getD (k : Nat) : ∀ (B : List Nat), 4 * k + 3 < B.length →
    (gidsOfBytes B).getD k 0 =
      (B.getD (4 * k) 0 + B.getD (4 * k + 1) 0 <<< 8 + B.getD (4 * k + 2) 0 <<< 16 +
        B.getD (4 * k + 3) 0 <<< 24) % 2 ^ 32 := by
  induction k with
  | zero =>
    intro B h
    match B with
    | b0 :: b1 :: b2 :: b3 :: rest => simp [gidsOfBytes]
    | [] => simp only [List.length_nil] at h; omega
    | [_] => simp only [List.length_cons, List.length_nil] at h; omega
    | [_, _] => simp only [List.length_cons, List.length_nil] at h; omega
    | [_, _, _] => simp only [List.length_cons, List.length_nil] at h; omega
  | succ k ih =>
    intro B h
    match B with
    | b0 :: b1 :: b2 :: b3 :: rest =>
      have h' : 4 * k + 3 < rest.length := by
        simp only [List.length_cons] at h
        omega
      rw [show 4 * (k + 1) + 3 = 4 * k + 3 + 4 by ring,
          show 4 * (k + 1) + 2 = 4 * k + 2 + 4 by ring,
          show 4 * (k + 1) + 1 = 4 * k + 1 + 4 by ring,
          show 4 * (k + 1) = 4 * k + 4 by ring,
          getD_cons4, getD_cons4, getD_cons4, getD_cons4]
      simp only [gidsOfBytes, List.getD_cons_succ]
      exact ih rest h'
    | [] => simp only [List.length_nil] at h; omega
    | [_] => simp only [List.length_cons, List.length_nil] at h; omega
    | [_, _] => simp only [List.length_cons, List.length_nil] at h; omega
    | [_, _, _] => simp only [List.length_cons, List.length_nil] at h; omega

/-! Claim theorems. -/

/-- C1 counterexample: the claim says every GID with zero bare id resolves to
the Nil sentinel with no error regardless of flip bits; but on a map whose
only tileset starts at first gid 1, the GID 0x20000000 (bare id 0, diagonal
flip bit set) makes `DecodeGID` return the InvalidGID error, and the NilTile
Nil flag of the sentinel is false besides. -/
theorem c1_counterexample :
    Map.DecodeGID mapA 0x20000000 = .error Err.InvalidGID ∧ NilTile.Nil = false := by
  exact ⟨rfl, rfl⟩

/-- C1 (amended): only the raw GID 0 (all 32 bits zero) returns the NilTile
sentinel with no error — and the Nil flag of that sentinel is false in this code;
a GID whose bare id is zero but that has any flip bit set is looked up
against the tileset list like any other id and, whenever the FirstGID of
every tileset is at least 1, fails with InvalidGID. -/
theorem c1_nil_gid_amended (m : Map) :
    m.DecodeGID 0 = .ok NilTile ∧ NilTile.Nil = false ∧
    (∀ gid, gid ≠ 0 → gid % 0x20000000 = 0 →
      (∀ t ∈ m.Tilesets, 1 ≤ t.FirstGID) →
      m.DecodeGID gid = .error Err.InvalidGID) := by
  refine ⟨rfl, rfl, ?_⟩
  intro gid hne hbare hpos
  unfold Map.DecodeGID
  rw [if_neg hne, and_mask29, hbare]
  exact decodeGIDFrom_all_gt _ _ _ (fun t ht => hpos t ht) _

/-- C1 witness: the amended statement evaluated on a concrete map and on the
flipped-zero GID 0x20000000. -/
theorem c1_witness :
    ((0x20000000 : Nat) ≠ 0 ∧ (0x20000000 : Nat) % 0x20000000 = 0 ∧
      (∀ t ∈ mapA.Tilesets, 1 ≤ t.FirstGID)) ∧
    (mapA.DecodeGID 0 = .ok NilTile ∧
      mapA.DecodeGID 0x20000000 = .error Err.InvalidGID) := by
  refine ⟨⟨by decide, by decide, by decide⟩, ⟨(c1_nil_gid_amended mapA).1, ?_⟩⟩
  exact (c1_nil_gid_amended mapA).2.2 0x20000000 (by decide) (by decide) (by decide)

/-- C2 (code bug): the NilTile sentinel is declared with `Nil: false`, so
`getTileset` treats nil cells as non-nil tiles owned by a nil tileset; on a
layer whose cells decode to one real tile (from the single tileset) followed
by one nil cell, the inference classifies the layer as using multiple
tilesets and `Read` leaves `Tileset = nil, Empty = false`, although the
non-nil cells use exactly one tileset. -/
theorem c2_inference_bug :
    decodeTiles mapA [1, 0] = .ok [tileA0, NilTile] ∧
    (readLayerFields mapA layerA10).Tileset = none ∧
    (readLayerFields mapA layerA10).Empty = false := by
  exact ⟨rfl, rfl, rfl⟩

/-- C3 (code bug): for a 2×2 bitmap-mode layer whose four cells are all
non-nil, `saveLayerBitmap` writes no bytes at all (the loop only emits a
byte every 8 cells and never flushes the trailing incomplete byte; moreover
its index is reset every 8 cells so only cells 0–7 are ever read and the
accumulator is never cleared), instead of the single byte 0x0F the claim
requires. -/
theorem c3_bitmap_bug :
    saveLayerBitmap map2x2 layerBitmap2x2 = [] ∧
    saveLayerBitmap map2x2 layerBitmap2x2 ≠ [15] := by
  exact ⟨rfl, by decide⟩

/-- C4 (code bug): with `Affine = "true"` and no `NilTile` property, a nil
cell does not serialize as the tile count 16 of the tileset: the part_004
GetProperty never sees the unique `Affine` property (so the entry is
16-bit), `IsNil` of the sentinel is false (so the nil-tile path is dead) and
the cell serializes as the two-byte entry 0; even the `nilTile` helper
itself returns 0 on its first call for a layer (the computed default 16 goes
only into the cache, the returned variable is shadowed) and 16 only from the
second call on. -/
theorem c4_niltile_bug :
    (GBA.ScreenblockEntry GBA.init mapGBA layerAffine 0 NilTile).1 = .ok (BinValue.u16 0) ∧
    putBytes Endian.little (BinValue.u16 0) = [0, 0] ∧
    NilTile.IsNil = false ∧
    (GBA.nilTile GBA.init mapGBA layerAffine 0).1 = BinValue.u16 0 ∧
    (GBA.nilTile (GBA.nilTile GBA.init mapGBA layerAffine 0).2 mapGBA layerAffine 0).1 =
      BinValue.u16 16 := by
  exact ⟨rfl, rfl, rfl, rfl, rfl⟩

/-- C8 (code bug): on a property list holding exactly one entry for the
queried key, the part_004 GetProperty (the revision with the pointer
signature used by gba.go) returns PropertyUnavailable instead of the value
— it tests `len(value)` (the still-empty named return) instead of
`len(values)` — while the part_003 revision returns the value as the claim
states. -/
theorem c8_property_lookup_bug :
    GetPropertyPtr propsAffine "Affine" = ("", some Err.PropertyUnavailable) ∧
    GetProperty propsAffine.PropertiesList "Affine" = ("true", none) := by
  exact ⟨rfl, rfl⟩

/-- C9 (code bug): `saveLayer` assigns the error of `binary.Write` to a
variable it never checks; with a writer that fails on its very first write,
the export of a four-cell layer still returns success, and the failed
two bytes of the failed write are silently missing from the output. -/
theorem c9_write_error_ignored :
    sinkWrite (some 0) 0 [] [0, 0] = (1, [], some Err.WriteError) ∧
    saveLayer consolePure map2x2 layerFour (some 0) = (.ok (), [0, 0, 0, 0, 0, 0]) := by
  exact ⟨rfl, rfl⟩

/-- C5 (confirmed): on a sorted, non-overlapping tileset list with positive
first gids, every bare id `g` in the range `[f, f+n)` of the tileset at
index `k`, presented with any combination of the three high flip bits (any
`gid` with `gid % 2^29 = g`), resolves to that tileset, local id `g - f`,
and flip flags equal to the corresponding high bits of the input GID. -/
theorem c5_resolver (m : Map) (k : Nat) (tk : Tileset) (g gid : Nat)
    (hget : m.Tilesets.get? k = some tk)
    (hsorted : ∀ j, j < m.Tilesets.length - 1 →
      (m.Tilesets.getD j defaultTileset).FirstGID +
        (m.Tilesets.getD j defaultTileset).Tiles.length ≤
        (m.Tilesets.getD (j + 1) defaultTileset).FirstGID)
    (hpos : 1 ≤ tk.FirstGID)
    (hlo : tk.FirstGID ≤ g) (hhi : g < tk.FirstGID + tk.Tiles.length)
    (hbare : gid % 0x20000000 = g) :
    m.DecodeGID gid =
      .ok { ID := g - tk.FirstGID, Tileset := some k,
            HorizontalFlip := (gid &&& GIDHorizontalFlip) != 0,
            VerticalFlip := (gid &&& GIDVerticalFlip) != 0, Nil := false } := by
  have hk : k < m.Tilesets.length := (List.get?_eq_some.mp hget).1
  have hgidne : gid ≠ 0 := by
    intro h0
    subst h0
    simp at hbare
    omega
  unfold Map.DecodeGID
  rw [if_neg hgidne, and_mask29, hbare]
  have habove : ∀ j t, k < j → m.Tilesets.get? j = some t → g < t.FirstGID := by
    intro j t hkj hgt
    have hj : j < m.Tilesets.length := (List.get?_eq_some.mp hgt).1
    have hgetDk : m.Tilesets.getD k defaultTileset = tk := by
      rw [List.getD_eq_get?, hget]
      rfl
    have hgetDj : m.Tilesets.getD j defaultTileset = t := by
      rw [List.getD_eq_get?, hgt]
      rfl
    have hstep := hsorted k (by omega)
    have hmono := firstGID_mono m.Tilesets hsorted (j - (k + 1)) (k + 1) (by omega)
    rw [show (k + 1) + (j - (k + 1)) = j by omega] at hmono
    rw [hgetDk] at hstep
    rw [hgetDj] at hmono
    omega
  exact decodeGIDFrom_hit m.Tilesets gid g k tk hget hlo habove m.Tilesets.length hk
    (Nat.le_refl _)

/-- C5 witness: on a map with tilesets [1,3) and [3,5), the bare id 2 with
the horizontal flip bit set resolves to tileset 0, local id 1, H flip on. -/
theorem c5_witness :
    (mapB.Tilesets.get? 0 = some tilesetB0 ∧ 1 ≤ tilesetB0.FirstGID ∧
      tilesetB0.FirstGID ≤ 2 ∧ 2 < tilesetB0.FirstGID + tilesetB0.Tiles.length ∧
      (0x80000002 : Nat) % 0x20000000 = 2) ∧
    mapB.DecodeGID 0x80000002 =
      .ok { ID := 1, Tileset := some 0,
            HorizontalFlip := true, VerticalFlip := false, Nil := false } := by
  have hs : ∀ j, j < mapB.Tilesets.length - 1 →
      (mapB.Tilesets.getD j defaultTileset).FirstGID +
        (mapB.Tilesets.getD j defaultTileset).Tiles.length ≤
        (mapB.Tilesets.getD (j + 1) defaultTileset).FirstGID := by
    intro j hj
    have hlen : mapB.Tilesets.length = 2 := rfl
    rw [hlen] at hj
    have hj0 : j = 0 := by omega
    subst hj0
    decide
  refine ⟨⟨rfl, by decide, by decide, by decide, by decide⟩, ?_⟩
  exact c5_resolver mapB 0 tilesetB0 2 0x80000002 rfl hs (by decide) (by decide) (by decide)
    (by decide)

/-- C6 counterexample: an empty layer (all cells nil, no tileset) carrying
`Bitmap = "true"` is exported through `saveLayerBitmap`, which checks no
precondition: the export returns success instead of the EmptyLayer failure
the claim requires for every exported layer. -/
theorem c6_counterexample :
    exportLayer consolePure map2x2 layerEmptyBitmap none = (.ok (), []) ∧
    (exportLayer consolePure map2x2 layerEmptyBitmap none).1 ≠ .error Err.EmptyLayer := by
  exact ⟨rfl, by decide⟩

/-- C6 (amended): for layers exported in indexed (non-bitmap) mode,
`saveLayer` checks the preconditions before any output byte: a nil tileset
fails with EmptyLayer when the layer is empty and MultipleTilesets
otherwise, and a tile count above the MaxTiles ceiling of the console fails with
TooManyTiles — in every case with no byte written.  Bitmap-mode layers
bypass all these checks. -/
theorem c6_preconditions_amended (c : Console) (m : Map) (l : Layer) (failAt : Option Nat) :
    (l.Tileset = none → l.Empty = true → saveLayer c m l failAt = (.error Err.EmptyLayer, [])) ∧
    (l.Tileset = none → l.Empty = false →
      saveLayer c m l failAt = (.error Err.MultipleTilesets, [])) ∧
    (l.Tileset ≠ none → (layerTilesetTiles m l).length > c.MaxTiles m l →
      saveLayer c m l failAt = (.error Err.TooManyTiles, [])) := by
  refine ⟨fun h1 h2 => ?_, fun h1 h2 => ?_, fun h1 h2 => ?_⟩
  · simp [saveLayer, h1, h2]
  · simp [saveLayer, h1, h2]
  · simp [saveLayer, h1, h2]

/-- C6 witness: the three indexed-mode failure cases evaluated on concrete
layers (no tileset and empty; no tileset and mixed; ceiling 0). -/
theorem c6_witness :
    saveLayer consolePure map2x2 layerNoTilesetEmpty none = (.error Err.EmptyLayer, []) ∧
    saveLayer consolePure map2x2 layerNoTilesetMixed none = (.error Err.MultipleTilesets, []) ∧
    saveLayer consoleZeroMax map2x2 layerFour none = (.error Err.TooManyTiles, []) := by
  refine ⟨(c6_preconditions_amended consolePure map2x2 layerNoTilesetEmpty none).1 rfl rfl,
    (c6_preconditions_amended consolePure map2x2 layerNoTilesetMixed none).2.1 rfl rfl,
    (c6_preconditions_amended consoleZeroMax map2x2 layerFour none).2.2 (by decide) (by decide)⟩

/-- C7 (confirmed): base64 layer decoding trims surrounding whitespace,
base64-decodes, applies the declared decompression (gzip, zlib, or
pass-through when the attribute is absent), fails with
InvalidDecodedDataLen exactly when the resulting byte count differs from
`Width*Height*4`, and otherwise reads consecutive 4-byte groups as
little-endian unsigned 32-bit ids in row-major order. -/
theorem c7_base64_pipeline (gz zl : List Nat → Except Err (List Nat)) (m : Map) (d : Data)
    (B : List Nat) (hB : Data.decodeBase64 gz zl d = .ok B) :
    (Data.decodeBase64 gz zl { d with Compression := "" } =
      base64DecodeStd (trimSpace d.RawData)) ∧
    (Data.decodeBase64 gz zl { d with Compression := "gzip" } =
      (base64DecodeStd (trimSpace d.RawData)).bind gz) ∧
    (Data.decodeBase64 gz zl { d with Compression := "zlib" } =
      (base64DecodeStd (trimSpace d.RawData)).bind zl) ∧
    (B.length ≠ m.Width * m.Height * 4 →
      Map.decodeLayerBase64 gz zl m d = .error Err.InvalidDecodedDataLen) ∧
    (B.length = m.Width * m.Height * 4 →
      ∃ gids, Map.decodeLayerBase64 gz zl m d = .ok gids ∧
        gids.length = m.Width * m.Height ∧
        ∀ k, k < m.Width * m.Height →
          gids.getD k 0 = (B.getD (4 * k) 0 + B.getD (4 * k + 1) 0 * 2 ^ 8 +
            B.getD (4 * k + 2) 0 * 2 ^ 16 + B.getD (4 * k + 3) 0 * 2 ^ 24) % 2 ^ 32) := by
  refine ⟨rfl, rfl, rfl, ?_, ?_⟩
  · intro hne
    unfold Map.decodeLayerBase64
    rw [hB]
    dsimp only
    rw [if_pos hne]
  · intro heq
    unfold Map.decodeLayerBase64
    rw [hB]
    dsimp only
    rw [if_neg (by omega : ¬ B.length ≠ m.Width * m.Height * 4)]
    refine ⟨gidsOfBytes B, rfl, ?_, ?_⟩
    · rw [gidsOfBytes_length, heq]
      omega
    · intro k hk
      have h4 : 4 * k + 3 < B.length := by omega
      rw [gidsOfBytes_getD k B h4, Nat.shiftLeft_eq, Nat.shiftLeft_eq, Nat.shiftLeft_eq]

/-- Pass-through stand-in for the external decompressors. -/
def passThrough : List Nat → Except Err (List Nat) := fun b => .ok b

/-- The payload "AQAAAA==" (base64 of the little-endian bytes of 1). -/
def d7 : Data :=
  { Encoding := "base64", Compression := "", RawData := [65, 81, 65, 65, 65, 65, 61, 61] }

/-- 1×1 map for the base64 witness. -/
def map1x1 : Map := { Width := 1, Height := 1, Tilesets := [], Layers := [] }

/-- C7 witness: decoding "AQAAAA==" on a 1×1 map produces the byte block
[1,0,0,0], whose length matches, and the single GID is 1. -/
theorem c7_witness :
    Data.decodeBase64 passThrough passThrough d7 = .ok [1, 0, 0, 0] ∧
    (∃ gids, Map.decodeLayerBase64 passThrough passThrough map1x1 d7 = .ok gids ∧
      gids.length = map1x1.Width * map1x1.Height ∧
      ∀ k, k < map1x1.Width * map1x1.Height →
        gids.getD k 0 = (([1, 0, 0, 0] : List Nat).getD (4 * k) 0 +
          ([1, 0, 0, 0] : List Nat).getD (4 * k + 1) 0 * 2 ^ 8 +
          ([1, 0, 0, 0] : List Nat).getD (4 * k + 2) 0 * 2 ^ 16 +
          ([1, 0, 0, 0] : List Nat).getD (4 * k + 3) 0 * 2 ^ 24) % 2 ^ 32) := by
  have hB : Data.decodeBase64 passThrough passThrough d7 = .ok [1, 0, 0, 0] := by decide
  exact ⟨hB,
    (c7_base64_pipeline passThrough passThrough map1x1 d7 [1, 0, 0, 0] hB).2.2.2.2 (by decide)⟩

/-- C10 (confirmed): for any GID with nonzero bare id, toggling the
diagonal-flip bit (bit 29) does not change the result of DecodeGID: the
decoded tile type has no diagonal-flip field, and the resolver only reads
the bare id and bits 30 and 31.  `lo + hi*2^30` ranges over exactly the
32-bit values whose bit 29 is clear and whose low 29 bits `lo` are nonzero. -/
theorem c10_diagonal_ignored (m : Map) (lo hi : Nat)
    (hlo : lo < 0x20000000) (hlo0 : lo ≠ 0) (hhi : hi < 4) :
    m.DecodeGID (lo + hi * 0x40000000 + 0x20000000) = m.DecodeGID (lo + hi * 0x40000000) := by
  have hne2 : lo + hi * 0x40000000 ≠ 0 := by omega
  have hne1 : lo + hi * 0x40000000 + 0x20000000 ≠ 0 := by omega
  unfold Map.DecodeGID
  rw [if_neg hne1, if_neg hne2, and_mask29, and_mask29,
    (by omega : (lo + hi * 0x40000000 + 0x20000000) % 0x20000000 =
      (lo + hi * 0x40000000) % 0x20000000)]
  apply decodeGIDFrom_congr
  · rw [show GIDHorizontalFlip = 2 ^ 31 by norm_num [GIDHorizontalFlip]]
    apply and_flag_eq
    rw [show (2 : Nat) ^ 31 = 0x80000000 by norm_num]
    omega
  · rw [show GIDVerticalFlip = 2 ^ 30 by norm_num [GIDVerticalFlip]]
    apply and_flag_eq
    rw [show (2 : Nat) ^ 30 = 0x40000000 by norm_num]
    omega

/-- C10 witness: on a concrete map, GID 1 decodes identically with and
without the diagonal-flip bit. -/
theorem c10_witness :
    ((1 : Nat) < 0x20000000 ∧ (1 : Nat) ≠ 0 ∧ (0 : Nat) < 4) ∧
    mapA.DecodeGID (1 + 0 * 0x40000000 + 0x20000000) = mapA.DecodeGID (1 + 0 * 0x40000000) := by
  exact ⟨⟨by decide, by decide, by decide⟩,
    c10_diagonal_ignored mapA 1 0 (by decide) (by decide) (by decide)⟩
